import Mathlib

/-!
Verification of the command-line utility in copy_hyper_dbs.py.

The development shallowly embeds the parts of the script that the
specification talks about: the lexical status of the source line that
constructs the target table name, the CSV loader class, the argument
parser of the run subcommand, the file-copy phase, the UPDATE loop of
the run command, and the table enumeration of the list command.
Python machine-level details that no claim depends on are not modelled.
-/

/- ----------------------------------------------------------------- -/
/- Python single-line string-literal tokenizer model (for line 160). -/
/- ----------------------------------------------------------------- -/

/-- Result of tokenizing one physical source line with respect to
string literals, mirroring the CPython tokenizer restricted to one
line: `ok` (line tokenizes, no open string), `unterminated` (a
single-quoted string literal is still open at end of line, a
SyntaxError in Python), `continuedLine` (the line ends with a
backslash continuation inside a string), `insideTriple` (a
triple-quoted string continues onto the next line, which is legal). -/
inductive LineScan where
  | ok : LineScan
  | unterminated : LineScan
  | continuedLine : LineScan
  | insideTriple : LineScan
deriving DecidableEq

/-- The single-quote character. -/
def pyQuote1 : Char := Char.ofNat 39

/-- The double-quote character. -/
def pyQuote2 : Char := Char.ofNat 34

/-- The backslash character. -/
def pyBackslash : Char := Char.ofNat 92

/-- The hash character, which starts a Python comment. -/
def pyHash : Char := Char.ofNat 35

/-- Whether a character opens a Python string literal. -/
def isQuoteChar (c : Char) : Bool := c = pyQuote1 || c = pyQuote2

/-- States of the line tokenizer automaton. `sawOne q` means an
opening quote `q` was just read (the literal could still turn out to
be empty or triple-quoted); `sawTwo q` means two consecutive quotes
were read (an empty literal, unless a third quote follows). -/
inductive LexState where
  | normal : LexState
  | comment : LexState
  | sawOne : Char → LexState
  | sawTwo : Char → LexState
  | inStr : Char → LexState
  | inStrEsc : Char → LexState
  | inTriple : Char → LexState
  | tripleClose1 : Char → LexState
  | tripleClose2 : Char → LexState
  | tripleEsc : Char → LexState
deriving DecidableEq

/-- Transition taken from the `normal` state on character `c`. -/
def lexNormalStep (c : Char) : LexState :=
  if c = pyHash then LexState.comment
  else if isQuoteChar c then LexState.sawOne c
  else LexState.normal

/-- One transition of the line tokenizer automaton. -/
def lexStep (s : LexState) (c : Char) : LexState :=
  match s with
  | LexState.normal => lexNormalStep c
  | LexState.comment => LexState.comment
  | LexState.sawOne q =>
      if c = q then LexState.sawTwo q
      else if c = pyBackslash then LexState.inStrEsc q
      else LexState.inStr q
  | LexState.sawTwo q =>
      if c = q then LexState.inTriple q else lexNormalStep c
  | LexState.inStr q =>
      if c = q then LexState.normal
      else if c = pyBackslash then LexState.inStrEsc q
      else LexState.inStr q
  | LexState.inStrEsc q => LexState.inStr q
  | LexState.inTriple q =>
      if c = q then LexState.tripleClose1 q
      else if c = pyBackslash then LexState.tripleEsc q
      else LexState.inTriple q
  | LexState.tripleClose1 q =>
      if c = q then LexState.tripleClose2 q
      else if c = pyBackslash then LexState.tripleEsc q
      else LexState.inTriple q
  | LexState.tripleClose2 q =>
      if c = q then LexState.normal
      else if c = pyBackslash then LexState.tripleEsc q
      else LexState.inTriple q
  | LexState.tripleEsc q => LexState.inTriple q

/-- Classification of the automaton state reached at end of line. -/
def lexFinal : LexState → LineScan
  | LexState.normal => LineScan.ok
  | LexState.comment => LineScan.ok
  | LexState.sawOne _ => LineScan.unterminated
  | LexState.sawTwo _ => LineScan.ok
  | LexState.inStr _ => LineScan.unterminated
  | LexState.inStrEsc _ => LineScan.continuedLine
  | LexState.inTriple _ => LineScan.insideTriple
  | LexState.tripleClose1 _ => LineScan.insideTriple
  | LexState.tripleClose2 _ => LineScan.insideTriple
  | LexState.tripleEsc _ => LineScan.insideTriple

/-- Tokenize one physical line. -/
def lexLine (line : String) : LineScan :=
  lexFinal (line.data.foldl lexStep LexState.normal)

/-- The exact text of line 160 of copy_hyper_dbs.py, the line of
AppendWKTColumns.run that constructs the target table name. -/
def line160 : String :=
  "                table_name = TableName(\"public\", \"LocalDatamunicipalities)"

/-- Claim C1: line 160 of AppendWKTColumns.run contains an
unterminated string literal, so the module fails to tokenize; by
CPython semantics the whole file is compiled before any statement
runs, hence every command-line invocation (both the list and the run
command) raises SyntaxError before command dispatch or file access. -/
theorem lexLine160_unterminated : lexLine line160 = LineScan.unterminated := by
  decide

/- ----------------------------------------------------------------- -/
/- Python-level errors and the CSV loader class CsvQueryClass.       -/
/- ----------------------------------------------------------------- -/

/-- Errors that the script can raise; none of them is caught anywhere
in the module, so each terminates the process. -/
inductive PyErr where
  | keyError : PyErr
  | sqlError : PyErr
  | fileNotFound : PyErr
  | syntaxError : PyErr
deriving DecidableEq

/-- One CSV row as produced by csv.DictReader: an ordered mapping
from field names to string values. -/
abbrev CsvRow : Type := List (String × String)

/-- Field access row[k]; `none` models a missing key (a KeyError at
the call site in Python). -/
def getField (r : CsvRow) (k : String) : Option String :=
  (List.find? (fun e => e.1 == k) r).map (fun e => e.2)

/-- The path that CsvQueryClass.open_csv actually opens (line 98).
The `path` parameter passed by the caller is ignored: the body binds
the local `path_to_csv` to the constant string "municipalities.csv"
and opens that. -/
def open_csv_path (path : String) : String := "municipalities.csv"

/-- CsvQueryClass.open_csv (lines 94-103): resolves the file to open
via `open_csv_path`, then reads every row eagerly. The first argument
models the working directory as a mapping from file names to parsed
CSV row lists; a missing file is a FileNotFoundError. -/
def open_csv (cwd : List (String × List CsvRow)) (path : String) :
    Except PyErr (List CsvRow) :=
  match List.find? (fun e => e.1 == open_csv_path path) cwd with
  | none => Except.error PyErr.fileNotFound
  | some e => Except.ok e.2

/-- The method names declared by class CsvQueryClass (lines 87-113),
in source order. The class declares exactly these three methods. -/
def CsvQueryClassMethods : List String :=
  ["__init__", "open_csv", "get_wkt_by_id"]

/-- The scan loop of CsvQueryClass.get_wkt_by_id (lines 111-113):
walk the rows in order; on the first row whose NAME field equals the
id, return its WKT value; a row without a NAME (or a matching row
without a WKT) raises KeyError; falling off the loop returns None. -/
def get_wkt_scan : List CsvRow → String → Except PyErr (Option String)
  | [], _ => Except.ok none
  | r :: rs, id =>
    match getField r "NAME" with
    | none => Except.error PyErr.keyError
    | some nm =>
      if id = nm then
        match getField r "WKT" with
        | none => Except.error PyErr.keyError
        | some w => Except.ok (some w)
      else get_wkt_scan rs id

/-- CsvQueryClass.get_wkt_by_id (lines 105-113): returns the empty
string when no rows are loaded, otherwise scans the rows linearly. -/
def get_wkt_by_id (rows : List CsvRow) (id : String) :
    Except PyErr (Option String) :=
  if rows.length < 1 then Except.ok (some "") else get_wkt_scan rows id

/-- Claim C2 (code bug): the run command does not read the CSV from
the path supplied with the -w (long form --wkt_path) command-line
flag. open_csv ignores its path
argument and opens the hardcoded relative path "municipalities.csv";
with the CSV present only at the supplied path wkt.csv, the load
raises FileNotFoundError instead of reading the supplied file. -/
theorem run_reads_hardcoded_csv_path :
    open_csv_path "wkt.csv" = "municipalities.csv" ∧
    open_csv [("wkt.csv", [[("OBJECTID", "1"), ("WKT", "POLYGON")]])] "wkt.csv"
      = Except.error PyErr.fileNotFound := by
  exact ⟨rfl, rfl⟩

/-- Claim C5 counterexample: CsvQueryClass declares exactly three
methods, and the only row lookup among them is get_wkt_by_id, which
takes a single identifier; no method looks a row up by a centroid
(latitude, longitude) coordinate pair, so the claim that the loader
exposes such a lookup is false of this source file. -/
theorem csv_class_methods_inventory :
    CsvQueryClassMethods = ["__init__", "open_csv", "get_wkt_by_id"] ∧
    CsvQueryClassMethods.length = 3 := by
  exact ⟨rfl, rfl⟩

/-- Claim C5 as amended: the single lookup method get_wkt_by_id
scans the loaded rows linearly in order, matching the id against each
NAME field of each row, and returns the WKT value of the first matching
row. -/
theorem get_wkt_by_id_first_match :
    ∀ (pre post : List CsvRow) (r : CsvRow) (id w : String),
    (∀ p ∈ pre, ∃ nm, getField p "NAME" = some nm ∧ id ≠ nm) →
    getField r "NAME" = some id →
    getField r "WKT" = some w →
    get_wkt_by_id (pre ++ r :: post) id = Except.ok (some w) := by
  intro pre post r id w hpre hn hw
  induction pre with
  | nil =>
    simp [get_wkt_by_id, get_wkt_scan, hn, hw]
  | cons p pre ih =>
    obtain ⟨nm, hnm, hne⟩ := hpre p (by simp)
    have ih2 := ih (fun q hq => hpre q (by simp [hq]))
    simp only [get_wkt_by_id] at ih2 ⊢
    rw [if_neg (by simp)] at ih2 ⊢
    simp only [List.cons_append, get_wkt_scan, hnm]
    rw [if_neg hne]
    exact ih2

/-- Concrete run of the amended C5 theorem: with two rows named Beta,
the lookup returns the WKT of the first one. -/
theorem get_wkt_by_id_first_match_witness :
    get_wkt_by_id
      [[("NAME", "Alpha"), ("WKT", "PA")],
       [("NAME", "Beta"), ("WKT", "PB")],
       [("NAME", "Beta"), ("WKT", "PC")]] "Beta" = Except.ok (some "PB") :=
  get_wkt_by_id_first_match
    [[("NAME", "Alpha"), ("WKT", "PA")]]
    [[("NAME", "Beta"), ("WKT", "PC")]]
    [("NAME", "Beta"), ("WKT", "PB")] "Beta" "PB"
    (by
      intro p hp
      simp only [List.mem_singleton] at hp
      subst hp
      exact ⟨"Alpha", rfl, by decide⟩)
    rfl rfl

/- ----------------------------------------------------------------- -/
/- SQL text built by AppendWKTColumns.run (lines 160-171).           -/
/- ----------------------------------------------------------------- -/

/-- A double quote as a string. -/
def dqs : String := String.singleton pyQuote2

/-- A single quote as a string. -/
def sqs : String := String.singleton pyQuote1

/-- SQL rendering of a Name or TableName component: the identifier
wrapped in double quotes (the fixed identifiers used by the script
contain no quotes themselves). -/
def quoteIdent (n : String) : String := dqs ++ n ++ dqs

/-- SQL rendering of TableName public LocalDatamunicipalities, the
table name that line 160 evidently constructs (its second string
literal is the unterminated token of claim C1). -/
def tableNameSQL : String :=
  quoteIdent "public" ++ "." ++ quoteIdent "LocalDatamunicipalities"

/-- SQL rendering of the added geometry column name (line 161). -/
def geometryNameSQL : String := quoteIdent "Geometry"

/-- SQL rendering of the join column name (line 162). -/
def parentIDNameSQL : String := quoteIdent "ParentID"

/-- SQL rendering of the added numeric-code column name (line 163). -/
def mapCodeNameSQL : String := quoteIdent "MapCode"

/-- The vendor SDK helper escape_string_literal: wraps the value in
single quotes, doubling any embedded single quote. -/
def escape_string_literal (s : String) : String :=
  sqs ++ s.replace sqs (sqs ++ sqs) ++ sqs

/-- The ALTER TABLE statement issued once (lines 164-165). -/
def alterTableSQL : String :=
  "ALTER TABLE " ++ tableNameSQL ++ " ADD COLUMN " ++ geometryNameSQL
    ++ " TEXT, ADD COLUMN " ++ mapCodeNameSQL ++ " INTEGER"

/-- The UPDATE statement text built for one CSV row (lines 169-171):
the WKT value goes through escape_string_literal, the OBJECTID value
is interpolated as-is. -/
def buildUpdateSQL (wkt id : String) : String :=
  "UPDATE " ++ tableNameSQL
    ++ " SET " ++ geometryNameSQL ++ "=" ++ escape_string_literal wkt
    ++ ", " ++ mapCodeNameSQL ++ "=0"
    ++ " WHERE " ++ parentIDNameSQL ++ "=" ++ id

/-- Claim C10: in every constructed UPDATE statement the WKT value
appears only through escape_string_literal, while the OBJECTID value
is appended verbatim as the raw final characters of the statement:
the statement equals the id-independent text followed by the id
itself, unquoted and unescaped, so SQL metacharacters in the id reach
the engine unaltered. -/
theorem update_sql_escapes_wkt_not_id :
    ∀ (wkt id : String),
    (∃ front, buildUpdateSQL wkt id =
        front ++ escape_string_literal wkt
          ++ (", " ++ mapCodeNameSQL ++ "=0" ++ " WHERE " ++ parentIDNameSQL ++ "=")
          ++ id) ∧
    buildUpdateSQL wkt id = buildUpdateSQL wkt "" ++ id := by
  intro wkt id
  constructor
  · refine ⟨"UPDATE " ++ tableNameSQL ++ " SET " ++ geometryNameSQL ++ "=", ?_⟩
    apply String.ext
    simp [buildUpdateSQL, String.data_append, List.append_assoc]
  · apply String.ext
    simp [buildUpdateSQL, String.data_append, List.append_assoc]

/- ----------------------------------------------------------------- -/
/- Semantics of the UPDATE loop of AppendWKTColumns.run (166-172).   -/
/- ----------------------------------------------------------------- -/

/-- One row of the target table after the ALTER TABLE: the join
column ParentID plus the two added columns, both initially NULL. -/
structure DbRow where
  parentID : Int
  geometry : Option String
  mapCode : Option Int
deriving DecidableEq

/-- The target table. -/
abbrev HyperTable : Type := List DbRow

/-- Effect of executing one UPDATE statement on the table: every row
whose ParentID equals the WHERE operand gets the (unescaped) WKT into
Geometry and the constant 0 into MapCode. Models the vendor engine
executing the statement of buildUpdateSQL. -/
def updateMatching (tbl : HyperTable) (wkt : String) (n : Int) : HyperTable :=
  List.map
    (fun r => if r.parentID = n
              then { r with geometry := some wkt, mapCode := some 0 }
              else r) tbl

/-- The affected_row_count reported for one UPDATE: the number of
table rows whose ParentID equals the WHERE operand. -/
def affectedCount (tbl : HyperTable) (n : Int) : Nat :=
  List.countP (fun r => r.parentID == n) tbl

/-- Accumulate the value of a digit run; any non-digit rejects. -/
def parseDigitsAux (acc : Nat) : List Char → Option Nat
  | [] => some acc
  | c :: cs =>
      if c.isDigit then parseDigitsAux (acc * 10 + (c.toNat - 48)) cs
      else none

/-- Models the vendor SQL engine reading the interpolated WHERE
operand of the UPDATE statement: it must be an integer literal
(optionally negated); any other text is a query error. -/
def parseSqlInt (s : String) : Option Int :=
  match s.data with
  | [] => none
  | c :: cs =>
      if c = Char.ofNat 45 then
        match cs with
        | [] => none
        | _ :: _ => Option.map (fun n => -(n : Int)) (parseDigitsAux 0 cs)
      else Option.map (fun n => (n : Int)) (parseDigitsAux 0 (c :: cs))

/-- The line printed after each UPDATE (line 172). -/
def updatePrint (id wkt : String) (cnt : Nat) : String :=
  "for " ++ id ++ " - " ++ toString wkt.length ++ " added, "
    ++ toString cnt ++ " rows changed"

/-- Outcome of the loop over CSV rows: final table state, the UPDATE
statement texts issued in order, the progress lines printed in order,
and the first uncaught error if one occurred. -/
structure LoopResult where
  table : HyperTable
  issued : List String
  printed : List String
  err : Option PyErr
deriving DecidableEq

/-- The loop of AppendWKTColumns.run (lines 166-172): for each CSV
row in order, read OBJECTID and WKT (KeyError stops the run), build
and execute the UPDATE (a malformed WHERE operand is a query error
that stops the run after the statement was issued), then print the
affected-row count. No handler exists, so the first error ends the
loop with all earlier updates kept. -/
def runLoop (tbl : HyperTable) : List CsvRow → LoopResult
  | [] => ⟨tbl, [], [], none⟩
  | mrow :: rest =>
    match getField mrow "OBJECTID" with
    | none => ⟨tbl, [], [], some PyErr.keyError⟩
    | some id =>
      match getField mrow "WKT" with
      | none => ⟨tbl, [], [], some PyErr.keyError⟩
      | some wkt =>
        match parseSqlInt id with
        | none => ⟨tbl, [buildUpdateSQL wkt id], [], some PyErr.sqlError⟩
        | some n =>
          let res := runLoop (updateMatching tbl wkt n) rest
          ⟨res.table,
           buildUpdateSQL wkt id :: res.issued,
           updatePrint id wkt (affectedCount tbl n) :: res.printed,
           res.err⟩

/-- A CSV row the loop body can process without raising: both fields
present and an OBJECTID the engine reads as an integer literal. -/
def rowOk (r : CsvRow) : Bool :=
  match getField r "OBJECTID", getField r "WKT" with
  | some id, some _ => (parseSqlInt id).isSome
  | _, _ => false

/-- The UPDATE statement text generated from one CSV row. -/
def rowStmt (r : CsvRow) : String :=
  buildUpdateSQL (Option.getD (getField r "WKT") "")
    (Option.getD (getField r "OBJECTID") "")

/-- Claim C3: when every CSV row is processable, the run command
issues exactly one UPDATE statement per CSV row in CSV order (the
issued texts are the per-row statements of buildUpdateSQL, escaped
WKT and constant MapCode 0 with the ParentID join predicate), prints
one affected-row-count line per update, and finishes without error. -/
theorem runLoop_one_update_per_row :
    ∀ (tbl : HyperTable) (rows : List CsvRow),
    List.all rows rowOk = true →
    (runLoop tbl rows).issued = List.map rowStmt rows ∧
    (runLoop tbl rows).printed.length = rows.length ∧
    (runLoop tbl rows).err = none := by
  intro tbl rows h
  induction rows generalizing tbl with
  | nil => simp [runLoop]
  | cons r rest ih =>
    rw [List.all_cons, Bool.and_eq_true] at h
    obtain ⟨h1, h2⟩ := h
    unfold rowOk at h1
    cases ho : getField r "OBJECTID" with
    | none => rw [ho] at h1; simp at h1
    | some id =>
      cases hw : getField r "WKT" with
      | none => rw [ho, hw] at h1; simp at h1
      | some wkt =>
        rw [ho, hw] at h1
        simp at h1
        cases hp : parseSqlInt id with
        | none => rw [hp] at h1; simp at h1
        | some n =>
          have ih2 := ih (updateMatching tbl wkt n) h2
          simp only [runLoop, ho, hw, hp]
          refine ⟨?_, ?_, ?_⟩
          · simp [rowStmt, ho, hw, ih2.1]
          · simp [ih2.2.1]
          · simp [ih2.2.2]

/-- Concrete run of the C3 theorem: two well-formed CSV rows yield
two issued UPDATE statements in order, two printed lines, no error. -/
theorem runLoop_one_update_per_row_witness :
    (runLoop [⟨1, none, none⟩, ⟨2, none, none⟩]
        [[("OBJECTID", "2"), ("WKT", "POLYGON A")],
         [("OBJECTID", "1"), ("WKT", "POLYGON B")]]).issued
      = List.map rowStmt
          [[("OBJECTID", "2"), ("WKT", "POLYGON A")],
           [("OBJECTID", "1"), ("WKT", "POLYGON B")]] ∧
    (runLoop [⟨1, none, none⟩, ⟨2, none, none⟩]
        [[("OBJECTID", "2"), ("WKT", "POLYGON A")],
         [("OBJECTID", "1"), ("WKT", "POLYGON B")]]).printed.length = 2 ∧
    (runLoop [⟨1, none, none⟩, ⟨2, none, none⟩]
        [[("OBJECTID", "2"), ("WKT", "POLYGON A")],
         [("OBJECTID", "1"), ("WKT", "POLYGON B")]]).err = none := by
  have h := runLoop_one_update_per_row [⟨1, none, none⟩, ⟨2, none, none⟩]
    [[("OBJECTID", "2"), ("WKT", "POLYGON A")],
     [("OBJECTID", "1"), ("WKT", "POLYGON B")]] (by decide)
  exact ⟨h.1, h.2.1, h.2.2⟩

/-- Claim C9: the script installs no exception handler, so the first
error in the loop (here a KeyError from a row without an OBJECTID
field) surfaces as the uncaught error of the run; the table keeps exactly
the updates of the rows processed before the failure (no rollback),
no further statement is issued, and no further line is printed. -/
theorem errors_propagate_no_rollback :
    ∀ (tbl : HyperTable) (pre rest : List CsvRow) (bad : CsvRow),
    List.all pre rowOk = true →
    getField bad "OBJECTID" = none →
    (runLoop tbl (pre ++ bad :: rest)).err = some PyErr.keyError ∧
    (runLoop tbl (pre ++ bad :: rest)).table = (runLoop tbl pre).table ∧
    (runLoop tbl (pre ++ bad :: rest)).issued = (runLoop tbl pre).issued ∧
    (runLoop tbl (pre ++ bad :: rest)).printed = (runLoop tbl pre).printed := by
  intro tbl pre rest bad hpre hbad
  induction pre generalizing tbl with
  | nil => simp [runLoop, hbad]
  | cons p pre ih =>
    rw [List.all_cons, Bool.and_eq_true] at hpre
    obtain ⟨h1, h2⟩ := hpre
    unfold rowOk at h1
    cases ho : getField p "OBJECTID" with
    | none => rw [ho] at h1; simp at h1
    | some id =>
      cases hw : getField p "WKT" with
      | none => rw [ho, hw] at h1; simp at h1
      | some wkt =>
        rw [ho, hw] at h1
        simp at h1
        cases hp : parseSqlInt id with
        | none => rw [hp] at h1; simp at h1
        | some n =>
          have ih2 := ih (updateMatching tbl wkt n) h2
          simp only [List.cons_append, runLoop, ho, hw, hp]
          exact ⟨ih2.1, ih2.2.1, by simp [ih2.2.2.1], by simp [ih2.2.2.2]⟩

/-- Concrete run of the C9 theorem: one good row, then a row without
an OBJECTID, then one more row; the run errors with KeyError, keeps
the first update, and never touches the remaining row. -/
theorem errors_propagate_no_rollback_witness :
    (runLoop [⟨1, none, none⟩]
        ([[("OBJECTID", "1"), ("WKT", "PA")]]
          ++ [("WKT", "PB")] :: [[("OBJECTID", "9"), ("WKT", "PC")]])).err
      = some PyErr.keyError ∧
    (runLoop [⟨1, none, none⟩]
        ([[("OBJECTID", "1"), ("WKT", "PA")]]
          ++ [("WKT", "PB")] :: [[("OBJECTID", "9"), ("WKT", "PC")]])).table
      = (runLoop [⟨1, none, none⟩] [[("OBJECTID", "1"), ("WKT", "PA")]]).table ∧
    (runLoop [⟨1, none, none⟩]
        ([[("OBJECTID", "1"), ("WKT", "PA")]]
          ++ [("WKT", "PB")] :: [[("OBJECTID", "9"), ("WKT", "PC")]])).issued
      = (runLoop [⟨1, none, none⟩] [[("OBJECTID", "1"), ("WKT", "PA")]]).issued ∧
    (runLoop [⟨1, none, none⟩]
        ([[("OBJECTID", "1"), ("WKT", "PA")]]
          ++ [("WKT", "PB")] :: [[("OBJECTID", "9"), ("WKT", "PC")]])).printed
      = (runLoop [⟨1, none, none⟩] [[("OBJECTID", "1"), ("WKT", "PA")]]).printed :=
  errors_propagate_no_rollback [⟨1, none, none⟩]
    [[("OBJECTID", "1"), ("WKT", "PA")]]
    [[("OBJECTID", "9"), ("WKT", "PC")]]
    [("WKT", "PB")] (by decide) (by decide)

/- ----------------------------------------------------------------- -/
/- File phase of AppendWKTColumns.run (lines 153-154).               -/
/- ----------------------------------------------------------------- -/

/-- A file system as a finite map from paths to byte contents. -/
abbrev FS : Type := List (String × List Nat)

/-- Content of a file, if present. -/
def fsGet : FS → String → Option (List Nat)
  | [], _ => none
  | e :: fs, p => if e.1 = p then some e.2 else fsGet fs p

/-- Effect of the shell command rm -rf on one path: the path is
removed if present; an absent path is not an error (line 153). -/
def fsRemove : FS → String → FS
  | [], _ => []
  | e :: fs, p => if e.1 = p then fsRemove fs p else e :: fsRemove fs p

/-- Write a file, replacing any previous content. -/
def fsSet (fs : FS) (p : String) (c : List Nat) : FS :=
  (p, c) :: fsRemove fs p

/-- shutil.copyfile (line 154): byte-for-byte copy; a missing source
raises FileNotFoundError. -/
def copyfile (fs : FS) (src dst : String) : Except PyErr FS :=
  match fsGet fs src with
  | none => Except.error PyErr.fileNotFound
  | some c => Except.ok (fsSet fs dst c)

/-- The file phase of AppendWKTColumns.run: first remove the output
path with rm -rf, then copy the input file onto the output path; the
copy is opened only afterwards (lines 157-159). -/
def runFilePhase (fs : FS) (inp out : String) : Except PyErr FS :=
  copyfile (fsRemove fs out) inp out

/-- Looking a path up after removing a different path is unchanged. -/
theorem fsGet_fsRemove_ne (fs : FS) (p q : String) (h : q ≠ p) :
    fsGet (fsRemove fs p) q = fsGet fs q := by
  induction fs with
  | nil => rfl
  | cons e fs ih =>
    simp only [fsRemove, fsGet]
    by_cases he : e.1 = p
    · rw [if_pos he, ih]
      have hq : ¬ e.1 = q := by
        rw [he]
        exact fun hc => h hc.symm
      rw [if_neg hq]
    · rw [if_neg he]
      simp only [fsGet]
      by_cases heq : e.1 = q
      · rw [if_pos heq, if_pos heq]
      · rw [if_neg heq, if_neg heq, ih]

/-- Looking up the path just written returns the new content. -/
theorem fsGet_fsSet_self (fs : FS) (p : String) (c : List Nat) :
    fsGet (fsSet fs p c) p = some c := by
  simp [fsGet, fsSet, List.find?]

/-- Claim C7: with the input file present and the output path
distinct from it, the run command first deletes whatever is at the
output path and then copies the input verbatim there, succeeding
whether or not the output path already exists; afterwards the output
holds exactly the input bytes. -/
theorem run_overwrites_output (fs : FS) (inp out : String) (content : List Nat)
    (hin : fsGet fs inp = some content) (hne : inp ≠ out) :
    ∃ fs2, runFilePhase fs inp out = Except.ok fs2 ∧
      fsGet fs2 out = some content := by
  have hsrc : fsGet (fsRemove fs out) inp = some content := by
    rw [fsGet_fsRemove_ne fs out inp hne]
    exact hin
  refine ⟨fsSet (fsRemove fs out) out content, ?_, ?_⟩
  · simp [runFilePhase, copyfile, hsrc]
  · exact fsGet_fsSet_self (fsRemove fs out) out content

/-- Concrete run of the C7 theorem: the output path already holds a
file and the re-run still succeeds, overwriting it with the input
bytes. -/
theorem run_overwrites_output_witness :
    ∃ fs2, runFilePhase
        [("input.hyper", [1, 2, 3]), ("output.hyper", [9])]
        "input.hyper" "output.hyper" = Except.ok fs2 ∧
      fsGet fs2 "output.hyper" = some [1, 2, 3] :=
  run_overwrites_output
    [("input.hyper", [1, 2, 3]), ("output.hyper", [9])]
    "input.hyper" "output.hyper" [1, 2, 3] (by decide) (by decide)

/- ----------------------------------------------------------------- -/
/- Removal mechanism (line 153).                                     -/
/- ----------------------------------------------------------------- -/

/-- Platforms the tool could run on. -/
inductive OsPlatform where
  | windows : OsPlatform
  | linux : OsPlatform
  | darwin : OsPlatform
deriving DecidableEq

/-- How an existing output file gets removed: by shelling out to an
external command, or by an OS-level library call (os.remove or
similar). -/
inductive RemovalMechanism where
  | shellOut : RemovalMechanism
  | osRemove : RemovalMechanism
deriving DecidableEq

/-- The removal mechanism the code selects on each platform. Line 153
is the unconditional call subprocess.call on rm -rf; the module
contains no platform test around it, so the selection is the constant
shell-out mechanism. -/
def removalMechanism (plat : OsPlatform) : RemovalMechanism :=
  RemovalMechanism.shellOut

/-- Claim C8 counterexample: it is false that the removal mechanism
is shell-out on some platforms and OS-level removal on others; no
platform selects the OS-level mechanism. -/
theorem removal_not_platform_dependent :
    ¬ ((∃ p, removalMechanism p = RemovalMechanism.shellOut) ∧
       (∃ p, removalMechanism p = RemovalMechanism.osRemove)) := by
  rintro ⟨-, ⟨p, hp⟩⟩
  cases p <;> simp [removalMechanism] at hp

/-- Claim C8 as amended: the removal of the existing output file uses
the shell-out mechanism (subprocess rm -rf) on every platform; no
platform-dependent selection exists in the code. -/
theorem removal_always_shell_out :
    ∀ p, removalMechanism p = RemovalMechanism.shellOut := by
  intro p
  rfl

/- ----------------------------------------------------------------- -/
/- The list command (ListTables.run, lines 53-78).                   -/
/- ----------------------------------------------------------------- -/

/-- Column types of the vendor engine, as far as the script compares
them: the geography type against everything else. -/
inductive SqlTypeM where
  | geography : SqlTypeM
  | text : SqlTypeM
  | integer : SqlTypeM
  | otherType : SqlTypeM
deriving DecidableEq

/-- A column definition from the catalog. -/
structure HColumn where
  cname : String
  ctype : SqlTypeM
deriving DecidableEq

/-- A table of the input database: its name, its column definitions,
and its rows (only their number matters to the list command). -/
structure HTable where
  tname : String
  columns : List HColumn
  rows : List (List String)
deriving DecidableEq

/-- A schema of the catalog. -/
structure HSchema where
  sname : String
  tables : List HTable
deriving DecidableEq

/-- The scalar query SELECT COUNT(*) issued per table (line 72). -/
def countStarQuery (t : HTable) : Nat := t.rows.length

/-- The spatial-column computation of line 73: the names of exactly
the columns whose type equals the geography type. -/
def spatialColumnsOf (t : HTable) : List String :=
  List.map HColumn.cname
    (List.filter (fun c => c.ctype == SqlTypeM.geography) t.columns)

/-- What the line printed for one table reports (lines 74-78): the
table name, the row count from the scalar query, and the names of the
geography-typed columns (empty when the table has none). -/
structure TableReport where
  rtable : String
  rowsInTable : Nat
  spatial : List String
deriving DecidableEq

/-- The report built for one table in the loop body. -/
def mkTableReport (t : HTable) : TableReport :=
  ⟨t.tname, countStarQuery t, spatialColumnsOf t⟩

/-- ListTables.run (lines 53-78): for each schema of the catalog, for
each of its tables, one line is printed; the reports are produced in
catalog order. -/
def listRun (catalog : List HSchema) : List TableReport :=
  List.bind catalog (fun s => List.map mkTableReport s.tables)

/-- Taken from the words of the specification, independently of the
loop body: the geography-typed columns of a table. -/
def specGeographyColumns (t : HTable) : List HColumn :=
  List.filter (fun c => c.ctype == SqlTypeM.geography) t.columns

/-- Claim C6: for every schema and table of the catalog, the list
command prints exactly one line per table (the output has one report
per table of the catalog), and the report for a table carries the
name of the table, its row count as returned by the scalar COUNT query,
and the names of exactly its geography-typed columns, whose reported
number is the number of geography-typed columns of the table. -/
theorem list_reports_geography_columns :
    ∀ (catalog : List HSchema) (s : HSchema) (t : HTable),
    s ∈ catalog → t ∈ s.tables →
    mkTableReport t ∈ listRun catalog ∧
    (listRun catalog).length = (List.map (fun sc => sc.tables.length) catalog).sum ∧
    (mkTableReport t).rtable = t.tname ∧
    (mkTableReport t).rowsInTable = t.rows.length ∧
    (mkTableReport t).spatial = List.map HColumn.cname (specGeographyColumns t) ∧
    (mkTableReport t).spatial.length
      = List.countP (fun c => c.ctype == SqlTypeM.geography) t.columns := by
  intro catalog s t hs ht
  refine ⟨?_, ?_, rfl, rfl, rfl, ?_⟩
  · exact List.mem_bind.mpr ⟨s, hs, List.mem_map_of_mem mkTableReport ht⟩
  · have hfun : (List.length ∘ fun sc : HSchema => List.map mkTableReport sc.tables)
        = fun sc : HSchema => sc.tables.length := by
      funext sc
      simp
    simp [listRun, List.length_bind, hfun]
  · simp [mkTableReport, spatialColumnsOf, List.countP_eq_length_filter]

/-- Concrete run of the C6 theorem on a catalog with one schema and
one table having two geography columns among three. -/
theorem list_reports_geography_columns_witness :
    mkTableReport
        ⟨"Cities",
         [⟨"Shape", SqlTypeM.geography⟩, ⟨"Pop", SqlTypeM.integer⟩,
          ⟨"Shape2", SqlTypeM.geography⟩],
         [["a"], ["b"]]⟩
      ∈ listRun
        [⟨"public",
          [⟨"Cities",
            [⟨"Shape", SqlTypeM.geography⟩, ⟨"Pop", SqlTypeM.integer⟩,
             ⟨"Shape2", SqlTypeM.geography⟩],
            [["a"], ["b"]]⟩]⟩] ∧
    (mkTableReport
        ⟨"Cities",
         [⟨"Shape", SqlTypeM.geography⟩, ⟨"Pop", SqlTypeM.integer⟩,
          ⟨"Shape2", SqlTypeM.geography⟩],
         [["a"], ["b"]]⟩).rowsInTable = 2 ∧
    (mkTableReport
        ⟨"Cities",
         [⟨"Shape", SqlTypeM.geography⟩, ⟨"Pop", SqlTypeM.integer⟩,
          ⟨"Shape2", SqlTypeM.geography⟩],
         [["a"], ["b"]]⟩).spatial.length = 2 := by
  have h := list_reports_geography_columns
    [⟨"public",
      [⟨"Cities",
        [⟨"Shape", SqlTypeM.geography⟩, ⟨"Pop", SqlTypeM.integer⟩,
         ⟨"Shape2", SqlTypeM.geography⟩],
        [["a"], ["b"]]⟩]⟩]
    ⟨"public",
     [⟨"Cities",
       [⟨"Shape", SqlTypeM.geography⟩, ⟨"Pop", SqlTypeM.integer⟩,
        ⟨"Shape2", SqlTypeM.geography⟩],
       [["a"], ["b"]]⟩]⟩
    ⟨"Cities",
     [⟨"Shape", SqlTypeM.geography⟩, ⟨"Pop", SqlTypeM.integer⟩,
      ⟨"Shape2", SqlTypeM.geography⟩],
     [["a"], ["b"]]⟩
    (by decide) (by decide)
  exact ⟨h.1, h.2.2.2.1, h.2.2.2.2.2⟩


/- ----------------------------------------------------------------- -/
/- Argument parser of the run subcommand (define_args, 122-131).     -/
/- ----------------------------------------------------------------- -/

/-- The argparse.Namespace produced by a successful parse of the run
subcommand: the three required file paths. -/
structure RunArgs where
  input_file : String
  output_file : String
  wkt_path : String
deriving DecidableEq

/-- Parse failures of argparse as the script configures it:
an option string that no add_argument call declared, an option
without a usable value, a required option never supplied. -/
inductive ArgErr where
  | unrecognized : String → ArgErr
  | expectedOneArg : String → ArgErr
  | missingRequired : String → ArgErr
deriving DecidableEq

/-- Whether a token begins with the option prefix character, in which
case argparse refuses to consume it as an option value. -/
def dashLeading (s : String) : Bool :=
  match s.data with
  | [] => false
  | c :: _ => c = Char.ofNat 45

/-- The option scan of the run subparser. define_args (lines 122-131)
declares exactly -i (long form --input_file), -o (--output_file) and
-w (--wkt_path), each required with one value; the -id declaration is
commented out (lines 132-133) and no -n option exists. A token that
matches no declared option is an unrecognized-arguments error; a
declared option whose next token is absent or option-shaped is an
expected-one-argument error; at the end each required option must
have been seen. argparse reports unrecognized arguments after the
scan; the model errors at the first one, which does not change which
command lines parse successfully. -/
def parseGo : List String → Option String → Option String → Option String →
    Except ArgErr RunArgs
  | [], i, o, w =>
    match i with
    | none => Except.error (ArgErr.missingRequired "-i")
    | some a =>
      match o with
      | none => Except.error (ArgErr.missingRequired "-o")
      | some b =>
        match w with
        | none => Except.error (ArgErr.missingRequired "-w")
        | some c => Except.ok ⟨a, b, c⟩
  | [f], _, _, _ =>
    if f = "-i" ∨ f = "--input_file" then Except.error (ArgErr.expectedOneArg f)
    else if f = "-o" ∨ f = "--output_file" then Except.error (ArgErr.expectedOneArg f)
    else if f = "-w" ∨ f = "--wkt_path" then Except.error (ArgErr.expectedOneArg f)
    else Except.error (ArgErr.unrecognized f)
  | f :: v :: rest2, i, o, w =>
    if f = "-i" ∨ f = "--input_file" then
      if dashLeading v then Except.error (ArgErr.expectedOneArg f)
      else parseGo rest2 (some v) o w
    else if f = "-o" ∨ f = "--output_file" then
      if dashLeading v then Except.error (ArgErr.expectedOneArg f)
      else parseGo rest2 i (some v) w
    else if f = "-w" ∨ f = "--wkt_path" then
      if dashLeading v then Except.error (ArgErr.expectedOneArg f)
      else parseGo rest2 i o (some v)
    else Except.error (ArgErr.unrecognized f)

/-- Parse the argument vector of the run subcommand. -/
def parseRunArgs (argv : List String) : Except ArgErr RunArgs :=
  parseGo argv none none none

/-- Claim C4 counterexample: the invocation of the claim, supplying
-n and -id after the three required flags, does not parse
successfully; it fails on -n, which no add_argument call declares. -/
theorem run_args_with_n_id_fail :
    parseRunArgs ["-i", "input.hyper", "-o", "output.hyper", "-w", "wkt.csv",
                  "-n", "role", "-id", "OBJECTID"]
      = Except.error (ArgErr.unrecognized "-n") := by
  rfl

/-- No argument vector containing the token -n parses successfully:
every branch of the option scan either rejects -n as unrecognized,
rejects it as an option-shaped value, or recurses into the remainder
that still contains it. -/
theorem parseGo_rejects_dash_n_aux :
    ∀ (n : Nat) (argv : List String), argv.length ≤ n →
    ∀ (i o w : Option String) (a : RunArgs),
    "-n" ∈ argv → parseGo argv i o w ≠ Except.ok a := by
  intro n
  induction n with
  | zero =>
    intro argv hl i o w a hm
    have hnil : argv = [] := List.length_eq_zero.mp (Nat.le_zero.mp hl)
    subst hnil
    simp at hm
  | succ n ih =>
    intro argv hl i o w a hm
    cases argv with
    | nil => simp at hm
    | cons f rest =>
      rw [List.mem_cons] at hm
      cases rest with
      | nil =>
        intro hc
        simp only [parseGo] at hc
        repeat' split at hc
        all_goals exact Except.noConfusion hc
      | cons v rest2 =>
        have hlen : rest2.length ≤ n := by
          simp only [List.length_cons] at hl
          omega
        by_cases h1 : f = "-i" ∨ f = "--input_file"
        · have hf : ¬ ("-n" = f) := by rcases h1 with h | h <;> rw [h] <;> decide
          by_cases hv : dashLeading v = true
          · intro hc
            simp only [parseGo] at hc
            rw [if_pos h1, if_pos hv] at hc
            exact Except.noConfusion hc
          · have hm2 : "-n" ∈ rest2 := by
              rcases hm with hfm | hm
              · exact absurd hfm hf
              · rw [List.mem_cons] at hm
                rcases hm with hvm | hm2
                · exact absurd (by rw [← hvm]; rfl) hv
                · exact hm2
            intro hc
            simp only [parseGo] at hc
            rw [if_pos h1, if_neg hv] at hc
            exact ih rest2 hlen (some v) o w a hm2 hc
        · by_cases h2 : f = "-o" ∨ f = "--output_file"
          · have hf : ¬ ("-n" = f) := by rcases h2 with h | h <;> rw [h] <;> decide
            by_cases hv : dashLeading v = true
            · intro hc
              simp only [parseGo] at hc
              rw [if_neg h1, if_pos h2, if_pos hv] at hc
              exact Except.noConfusion hc
            · have hm2 : "-n" ∈ rest2 := by
                rcases hm with hfm | hm
                · exact absurd hfm hf
                · rw [List.mem_cons] at hm
                  rcases hm with hvm | hm2
                  · exact absurd (by rw [← hvm]; rfl) hv
                  · exact hm2
              intro hc
              simp only [parseGo] at hc
              rw [if_neg h1, if_pos h2, if_neg hv] at hc
              exact ih rest2 hlen i (some v) w a hm2 hc
          · by_cases h3 : f = "-w" ∨ f = "--wkt_path"
            · have hf : ¬ ("-n" = f) := by rcases h3 with h | h <;> rw [h] <;> decide
              by_cases hv : dashLeading v = true
              · intro hc
                simp only [parseGo] at hc
                rw [if_neg h1, if_neg h2, if_pos h3, if_pos hv] at hc
                exact Except.noConfusion hc
              · have hm2 : "-n" ∈ rest2 := by
                  rcases hm with hfm | hm
                  · exact absurd hfm hf
                  · rw [List.mem_cons] at hm
                    rcases hm with hvm | hm2
                    · exact absurd (by rw [← hvm]; rfl) hv
                    · exact hm2
                intro hc
                simp only [parseGo] at hc
                rw [if_neg h1, if_neg h2, if_pos h3, if_neg hv] at hc
                exact ih rest2 hlen i o (some v) a hm2 hc
            · intro hc
              simp only [parseGo] at hc
              rw [if_neg h1, if_neg h2, if_neg h3] at hc
              exact Except.noConfusion hc

/-- Claim C4 as amended: the run subparser accepts exactly the three
required flags -i, -o and -w with one value each, and declares
neither -n nor -id (the latter is commented out in define_args); any
invocation containing -n fails to parse. -/
theorem run_parser_flags_amended :
    (∀ i o w : String, dashLeading i = false → dashLeading o = false →
      dashLeading w = false →
      parseRunArgs ["-i", i, "-o", o, "-w", w] = Except.ok ⟨i, o, w⟩) ∧
    (∀ (argv : List String) (a : RunArgs), "-n" ∈ argv →
      parseRunArgs argv ≠ Except.ok a) := by
  constructor
  · intro i o w hi ho hw
    have hi' : ¬ dashLeading i = true := by rw [hi]; exact Bool.false_ne_true
    have ho' : ¬ dashLeading o = true := by rw [ho]; exact Bool.false_ne_true
    have hw' : ¬ dashLeading w = true := by rw [hw]; exact Bool.false_ne_true
    show parseGo ["-i", i, "-o", o, "-w", w] none none none = Except.ok ⟨i, o, w⟩
    rw [show parseGo ["-i", i, "-o", o, "-w", w] none none none
          = (if dashLeading i = true then Except.error (ArgErr.expectedOneArg "-i")
             else parseGo ["-o", o, "-w", w] (some i) none none) from rfl,
        if_neg hi',
        show parseGo ["-o", o, "-w", w] (some i) none none
          = (if dashLeading o = true then Except.error (ArgErr.expectedOneArg "-o")
             else parseGo ["-w", w] (some i) (some o) none) from rfl,
        if_neg ho',
        show parseGo ["-w", w] (some i) (some o) none
          = (if dashLeading w = true then Except.error (ArgErr.expectedOneArg "-w")
             else Except.ok ⟨i, o, w⟩) from rfl,
        if_neg hw']
  · intro argv a hm
    exact parseGo_rejects_dash_n_aux argv.length argv (le_refl _) none none none a hm

/-- Concrete run of the amended C4 theorem: the documented invocation
with only -i, -o and -w parses; adding -n makes parsing fail. -/
theorem run_parser_flags_amended_witness :
    parseRunArgs ["-i", "input.hyper", "-o", "output.hyper", "-w", "wkt.csv"]
      = Except.ok ⟨"input.hyper", "output.hyper", "wkt.csv"⟩ ∧
    parseRunArgs ["-i", "input.hyper", "-n", "role"]
      ≠ Except.ok ⟨"input.hyper", "output.hyper", "wkt.csv"⟩ :=
  ⟨run_parser_flags_amended.1 "input.hyper" "output.hyper" "wkt.csv" rfl rfl rfl,
   run_parser_flags_amended.2 ["-i", "input.hyper", "-n", "role"]
      ⟨"input.hyper", "output.hyper", "wkt.csv"⟩ (by decide)⟩
